import Mathlib

/-!
Shallow embedding of `heudiconv/utils.py` (permission toggling and JSON
pretty-printing) together with theorems checking the module's specification
against the code.

Part 1: the permission toggler.  `set_readonly` (utils.py lines 289-317)
reads the current permission bits with `os.lstat` (not following symlinks),
computes new permission bits, and applies them with `os.chmod` (which does
follow symlinks).  `is_readonly` (lines 320-326) resolves the path with
`os.path.realpath` and reports whether no write bit is set.

The filesystem is modelled as an association list from path names to entries;
an entry is either a regular file or a symbolic link, each carrying its own
mode bits, mirroring what `os.lstat` can observe.
-/

/-- A directory entry: a regular file or a symbolic link, each with its own
`st_mode` permission bits (as observed by `os.lstat`). -/
inductive FsEntry where
  | file (mode : Nat)
  | symlink (mode : Nat) (target : String)
deriving DecidableEq

/-- The mode bits an `os.lstat` call reports for the entry itself. -/
def FsEntry.mode : FsEntry → Nat
  | FsEntry.file m => m
  | FsEntry.symlink m _ => m

/-- A flat filesystem: paths mapped to entries (first binding wins). -/
abbrev FS := List (String × FsEntry)

/-- Look up the entry stored at a path. -/
def FS.lookup : FS → String → Option FsEntry
  | [], _ => none
  | (q, e) :: rest, p => if q = p then some e else FS.lookup rest p

/-- Replace the first binding of `p` with a regular file of mode `m`
(the effect of a successful `os.chmod`). -/
def FS.setMode : FS → String → Nat → FS
  | [], _, _ => []
  | (q, e) :: rest, p, m =>
    if q = p then (q, FsEntry.file m) :: rest else (q, e) :: FS.setMode rest p m

/-- Follow symbolic links for at most `fuel` steps, as `os.path.realpath`
does; a missing path or a regular file resolves to itself. -/
def FS.realpathAux (fs : FS) : Nat → String → String
  | 0, p => p
  | fuel + 1, p =>
    match FS.lookup fs p with
    | some (FsEntry.symlink _ t) => FS.realpathAux fs fuel t
    | _ => p

/-- Model of `os.path.realpath`: fully dereference symbolic links.  The fuel
`fs.length` suffices for every acyclic chain of entries. -/
def FS.realpath (fs : FS) (p : String) : String :=
  FS.realpathAux fs fs.length p

/-- Model of `stat.S_IMODE(os.lstat(path).st_mode)`: the permission bits
(low 12 bits, mask `0o7777`) of the entry itself, without following
symbolic links; `none` when the path does not exist (`os.lstat` raises). -/
def FS.lstatMode (fs : FS) (path : String) : Option Nat :=
  match FS.lookup fs path with
  | some e => some (FsEntry.mode e &&& 0o7777)
  | none => none

/-- Model of `os.chmod(path, m)`: follows symbolic links to the real file and
replaces its permission bits; fails (`OSError`) when the resolved path is not
an existing regular file. -/
def FS.chmod (fs : FS) (path : String) (m : Nat) : Option FS :=
  match FS.lookup fs (FS.realpath fs path) with
  | some (FsEntry.file _) => some (FS.setMode fs (FS.realpath fs path) m)
  | _ => none

/-- Source line 285: `ALL_CAN_WRITE = (stat.S_IWUSR | stat.S_IWGRP | stat.S_IWOTH)`,
that is `0o200 | 0o020 | 0o002 = 0o222`. -/
def ALL_CAN_WRITE : Nat := 0o200 ||| 0o20 ||| 0o2

/-- Source line 286: `ALL_CAN_READ = (stat.S_IRUSR | stat.S_IRGRP | stat.S_IROTH)`,
that is `0o400 | 0o040 | 0o004 = 0o444`. -/
def ALL_CAN_READ : Nat := 0o400 ||| 0o40 ||| 0o4

/-- The permission-bit computation of `set_readonly` (utils.py lines 307-314).
Python's `perms & ~ALL_CAN_WRITE` on a non-negative int clears the bits of
`ALL_CAN_WRITE`; on `Nat` that bit-clearing is `(perms ||| m) ^^^ m`. -/
def compute_new_perms (perms : Nat) (read_only : Bool) : Nat :=
  if read_only then
    (perms ||| ALL_CAN_WRITE) ^^^ ALL_CAN_WRITE
  else
    -- need to set only for those which had read bit set
    -- read bit is <<1 away from write bit
    (perms ||| ((perms &&& ALL_CAN_READ) >>> 1))

/-- Model of `set_readonly(path, read_only)` (utils.py lines 289-317): read the
entry's own mode bits via `os.lstat`, compute the new permission bits, apply
them via `os.chmod`, and return them.  A failing `os.lstat` or `os.chmod`
raises (`Except.error`) and leaves the filesystem unchanged; the mode is read
before any write is attempted. -/
def set_readonly (fs : FS) (path : String) (read_only : Bool := true) :
    Except String Nat × FS :=
  match FS.lstatMode fs path with
  | none => (Except.error "FilesystemError", fs)
  | some perms =>
    match FS.chmod fs path (compute_new_perms perms read_only) with
    | none => (Except.error "FilesystemError", fs)
    | some fs2 => (Except.ok (compute_new_perms perms read_only), fs2)

/-- Model of `is_readonly(path)` (utils.py lines 320-326): dereference the
path with `os.path.realpath`, read the resolved entry's mode bits, and return
`not bool(perms & ALL_CAN_WRITE)`.  It returns a value and no filesystem, so
it has no side effect in this model. -/
def is_readonly (fs : FS) (path : String) : Except String Bool :=
  match FS.lstatMode fs (FS.realpath fs path) with
  | none => Except.error "FilesystemError"
  | some perms => Except.ok (decide (perms &&& ALL_CAN_WRITE = 0))

/-- Per-class (owner/group/other) behaviour of the `read_only=False` branch,
as claimed: a class with its read bit set gets its write bit set; a class
without its read bit keeps its write bit exactly as it was. -/
abbrev PerClassWriteGrant (perms n : Nat) : Prop :=
  (perms &&& 0o400 ≠ 0 → n &&& 0o200 = 0o200) ∧
  (perms &&& 0o400 = 0 → n &&& 0o200 = perms &&& 0o200) ∧
  (perms &&& 0o40 ≠ 0 → n &&& 0o20 = 0o20) ∧
  (perms &&& 0o40 = 0 → n &&& 0o20 = perms &&& 0o20) ∧
  (perms &&& 0o4 ≠ 0 → n &&& 0o2 = 0o2) ∧
  (perms &&& 0o4 = 0 → n &&& 0o2 = perms &&& 0o2)


/-!
Part 2: the canonical JSON formatter.  `json_dumps_pretty` (utils.py lines
205-225) serializes a value with `_canonical_dumps` (lines 158-170, i.e.
`json.dumps(j, indent=indent, sort_keys=sort_keys)` followed by stripping the
trailing-space quirk), then applies four `re.sub` rewrites to collapse runs of
numeric-only lines, and finally re-parses the text with `json.loads` (which
raises on invalid JSON; the parsed value is discarded — the round-trip assert
in the source is commented out).

Values are modelled by `JVal`; numbers are integers (the formatter is
exercised on integer-valued inputs here; float repr is outside the model).
Each regex is embedded as an anchored matcher returning the replacement text
and the rest of the input, driven by `applySub`, the left-to-right
non-overlapping scan of `re.sub`.  In all four patterns every greedy
character-class repetition is followed by literals outside that class, so the
Python engine's greedy matching is exactly the maximal munch taken here.
-/

/-- A JSON value: Python's None/bool/int/str/list/dict universe as consumed
by `json.dumps`. -/
inductive JVal where
  | null
  | bool (b : Bool)
  | num (n : Int)
  | str (s : String)
  | arr (elts : List JVal)
  | obj (members : List (String × JVal))

/-- Lowercase hex digit, as used by `json.dumps` unicode escapes. -/
def hexDigitChar (n : Nat) : Char :=
  if n < 10 then Char.ofNat (48 + n) else Char.ofNat (87 + n)

/-- A `\uXXXX` escape for one 16-bit code unit. -/
def uEscape16 (n : Nat) : List Char :=
  ['\\', 'u', hexDigitChar (n / 4096 % 16), hexDigitChar (n / 256 % 16),
   hexDigitChar (n / 16 % 16), hexDigitChar (n % 16)]

/-- Escape one character the way `json.dumps` (default `ensure_ascii=True`)
does: the short escapes for quote, backslash and control characters, and
`\uXXXX` (with surrogate pairs above U+FFFF) for anything outside
printable ASCII. -/
def escChar (c : Char) : List Char :=
  if c = '"' then ['\\', '"']
  else if c = '\\' then ['\\', '\\']
  else if c = '\n' then ['\\', 'n']
  else if c = '\r' then ['\\', 'r']
  else if c = '\t' then ['\\', 't']
  else if c.toNat = 8 then ['\\', 'b']
  else if c.toNat = 12 then ['\\', 'f']
  else if c.toNat < 32 || c.toNat > 126 then
    if c.toNat < 65536 then uEscape16 c.toNat
    else uEscape16 (55296 + (c.toNat - 65536) / 1024)
      ++ uEscape16 (56320 + (c.toNat - 65536) % 1024)
  else [c]

/-- A JSON string literal as `json.dumps` renders it. -/
def encodeString (s : String) : List Char :=
  '"' :: (s.data.map escChar).flatten ++ ['"']

/-- Code-point-wise lexicographic comparison, Python's `<=` on strings. -/
def charListLe : List Char → List Char → Bool
  | [], _ => true
  | _ :: _, [] => false
  | c :: cs, d :: ds =>
    if c.toNat < d.toNat then true
    else if d.toNat < c.toNat then false
    else charListLe cs ds

def strLe (a b : String) : Bool := charListLe a.data b.data

/-- Insertion into a key-sorted member list (keys are unique in a Python
dict, so stability questions do not arise). -/
def insertMember (kv : String × JVal) : List (String × JVal) → List (String × JVal)
  | [] => [kv]
  | kv2 :: rest =>
    if strLe kv.1 kv2.1 then kv :: kv2 :: rest else kv2 :: insertMember kv rest

/-- Sort an object's members by key, as `sorted(dct.items())` does. -/
def sortMembers : List (String × JVal) → List (String × JVal)
  | [] => []
  | kv :: rest => insertMember kv (sortMembers rest)

mutual
/-- Recursively sort every object's members by key: `sort_keys=True` applies
at each nesting level of `json.dumps`. -/
def sortKeysJ : JVal → JVal
  | JVal.arr xs => JVal.arr (sortKeysList xs)
  | JVal.obj kvs => JVal.obj (sortMembers (sortKeysMembers kvs))
  | x => x

def sortKeysList : List JVal → List JVal
  | [] => []
  | x :: xs => sortKeysJ x :: sortKeysList xs

def sortKeysMembers : List (String × JVal) → List (String × JVal)
  | [] => []
  | (k, v) :: rest => (k, sortKeysJ v) :: sortKeysMembers rest
end

def spaces (n : Nat) : List Char := List.replicate n ' '

mutual
/-- The indenting writer of `json.dumps(j, indent=w)` (when an indent is
given the separators default to `(',', ': ')`): scalars inline, a non-empty
container opens, puts each element on its own line behind `w * level` spaces,
and closes on a fresh line behind `w * (level - 1)` spaces; empty containers
render as `[]` and `\x7b\x7d`. -/
def encVal (w : Nat) : Nat → JVal → List Char
  | _, JVal.null => ['n', 'u', 'l', 'l']
  | _, JVal.bool true => ['t', 'r', 'u', 'e']
  | _, JVal.bool false => ['f', 'a', 'l', 's', 'e']
  | _, JVal.num n => (toString n).data
  | _, JVal.str s => encodeString s
  | _, JVal.arr [] => ['[', ']']
  | lvl, JVal.arr (x :: xs) =>
    '[' :: encArrItems w (lvl + 1) (x :: xs) ++ '\n' :: spaces (w * lvl) ++ [']']
  | _, JVal.obj [] => ['\x7b', '\x7d']
  | lvl, JVal.obj (kv :: kvs) =>
    '\x7b' :: encObjItems w (lvl + 1) (kv :: kvs) ++ '\n' :: spaces (w * lvl) ++ ['\x7d']

def encArrItems (w : Nat) : Nat → List JVal → List Char
  | _, [] => []
  | lvl, [x] => '\n' :: spaces (w * lvl) ++ encVal w lvl x
  | lvl, x :: y :: xs =>
    '\n' :: spaces (w * lvl) ++ encVal w lvl x ++ ',' :: encArrItems w lvl (y :: xs)

def encObjItems (w : Nat) : Nat → List (String × JVal) → List Char
  | _, [] => []
  | lvl, [(k, v)] =>
    '\n' :: spaces (w * lvl) ++ encodeString k ++ ':' :: ' ' :: encVal w lvl v
  | lvl, (k, v) :: kv2 :: kvs =>
    '\n' :: spaces (w * lvl) ++ encodeString k ++ ':' :: ' ' :: encVal w lvl v
      ++ ',' :: encObjItems w lvl (kv2 :: kvs)
end

/-- `json.dumps(j, indent=indent, sort_keys=sort_keys)`. -/
def json_dumps (j : JVal) (indent : Nat) (sort_keys : Bool) : List Char :=
  encVal indent 0 (if sort_keys then sortKeysJ j else j)

/-- Python `out.replace(" \n", "\n")`: left-to-right, non-overlapping. -/
def replaceSpaceNewline : List Char → List Char
  | [] => []
  | ' ' :: '\n' :: rest => '\n' :: replaceSpaceNewline rest
  | c :: rest => c :: replaceSpaceNewline rest

/-- Model of `_canonical_dumps` (utils.py lines 158-170): `json.dumps` with
the given arguments, then strip the trailing-space quirk; `json_dumps_pretty`
always passes an indent, so the `if 'indent' in kwargs` branch always runs. -/
def canonical_dumps (j : JVal) (indent : Nat) (sort_keys : Bool) : List Char :=
  replaceSpaceNewline (json_dumps j indent sort_keys)

/-- The character class `[-+.0-9e]` shared by the `json_dumps_pretty`
regexes. -/
def isJsonNumChar (c : Char) : Bool :=
  c = '-' || c = '+' || c = '.' || ('0' ≤ c && c ≤ '9') || c = 'e'

/-- The class `[\n ]` of regex 1. -/
def isWsNl (c : Char) : Bool := c = '\n' || c = ' '

/-- The lookahead `(?= *"?[-+.0-9e]+"?)` of regex 1: optional spaces, an
optional quote, then at least one numeric character. -/
def lookahead1 (s : List Char) : Bool :=
  match s.dropWhile (fun c => c = ' ') with
  | '"' :: c :: _ => isJsonNumChar c
  | c :: _ => isJsonNumChar c
  | [] => false

/-- Anchored match of regex 1 (utils.py line 214),
`[\n ]+("?[-+.0-9e]+"?,?) *\n(?= *"?[-+.0-9e]+"?)` with replacement ` \1`:
whitespace, then an optionally quoted number with optional comma, trailing
spaces and a newline, followed (without consuming) by another number.
Returns the replacement and the rest after the consumed text. -/
def match1 (s : List Char) : Option (List Char × List Char) :=
  let ws := s.takeWhile isWsNl
  let s1 := s.dropWhile isWsNl
  if ws.isEmpty then none else
  let q1s2 : List Char × List Char :=
    match s1 with
    | '"' :: rest => (['"'], rest)
    | _ => ([], s1)
  let digs := q1s2.2.takeWhile isJsonNumChar
  let s3 := q1s2.2.dropWhile isJsonNumChar
  if digs.isEmpty then none else
  let q2s4 : List Char × List Char :=
    match s3 with
    | '"' :: rest => (['"'], rest)
    | _ => ([], s3)
  let cs5 : List Char × List Char :=
    match q2s4.2 with
    | ',' :: rest => ([','], rest)
    | _ => ([], q2s4.2)
  let s6 := cs5.2.dropWhile (fun c => c = ' ')
  match s6 with
  | '\n' :: s7 =>
    if lookahead1 s7 then some (' ' :: (q1s2.1 ++ digs ++ q2s4.1 ++ cs5.1), s7)
    else none
  | _ => none

/-- Anchored match of regex 2 (utils.py line 217), `" *\]" -> "]"`: spaces
before a closing bracket are removed. -/
def match2 (s : List Char) : Option (List Char × List Char) :=
  match s.dropWhile (fun c => c = ' ') with
  | ']' :: rest => some ([']'], rest)
  | _ => none

/-- Anchored match of regex 3 (utils.py line 219),
`'  *("?[-+.0-9e]+"?)[ \n]*'` with replacement ` \1`: one or more spaces,
an optionally quoted number, and any following spaces/newlines collapse to a
single leading space. -/
def match3 (s : List Char) : Option (List Char × List Char) :=
  let sp := s.takeWhile (fun c => c = ' ')
  let s1 := s.dropWhile (fun c => c = ' ')
  if sp.isEmpty then none else
  let q1s2 : List Char × List Char :=
    match s1 with
    | '"' :: rest => (['"'], rest)
    | _ => ([], s1)
  let digs := q1s2.2.takeWhile isJsonNumChar
  let s3 := q1s2.2.dropWhile isJsonNumChar
  if digs.isEmpty then none else
  let q2s4 : List Char × List Char :=
    match s3 with
    | '"' :: rest => (['"'], rest)
    | _ => ([], s3)
  some (' ' :: (q1s2.1 ++ digs ++ q2s4.1), q2s4.2.dropWhile isWsNl)

/-- Anchored match of regex 4 (utils.py line 221), `'\[ ' -> '['`: one space
after an opening bracket is removed. -/
def match4 : List Char → Option (List Char × List Char)
  | '[' :: ' ' :: rest => some (['['], rest)
  | _ => none

/-- The scan of `re.sub`: at each position try the anchored matcher; on a
match emit the replacement and continue after the consumed text, otherwise
copy one character.  Every matcher above consumes at least one character, so
fuel `s.length` never runs out. -/
def subAux (step : List Char → Option (List Char × List Char)) :
    Nat → List Char → List Char
  | 0, s => s
  | _ + 1, [] => []
  | fuel + 1, c :: rest =>
    match step (c :: rest) with
    | some (repl, after) => repl ++ subAux step fuel after
    | none => c :: subAux step fuel rest

def applySub (step : List Char → Option (List Char × List Char))
    (s : List Char) : List Char :=
  subAux step s.length s

/-- JSON whitespace accepted by `json.loads`. -/
def isWsJson (c : Char) : Bool := c = ' ' || c = '\t' || c = '\n' || c = '\r'

def skipJsonWs (s : List Char) : List Char := s.dropWhile isWsJson

def parseHexDigit (c : Char) : Option Nat :=
  if '0' ≤ c && c ≤ '9' then some (c.toNat - 48)
  else if 'a' ≤ c && c ≤ 'f' then some (c.toNat - 87)
  else if 'A' ≤ c && c ≤ 'F' then some (c.toNat - 55)
  else none

/-- The string scanner of `json.loads` (strict mode): plain characters up to
the closing quote, the standard backslash escapes, `\uXXXX`; raw control
characters are rejected.  Surrogate escapes are unsupported in the model. -/
def parseStringBody : Nat → List Char → List Char → Option (String × List Char)
  | 0, _, _ => none
  | fuel + 1, s, acc =>
    match s with
    | [] => none
    | '"' :: rest => some (String.mk acc, rest)
    | '\\' :: esc =>
      match esc with
      | '"' :: rest => parseStringBody fuel rest (acc ++ ['"'])
      | '\\' :: rest => parseStringBody fuel rest (acc ++ ['\\'])
      | '/' :: rest => parseStringBody fuel rest (acc ++ ['/'])
      | 'b' :: rest => parseStringBody fuel rest (acc ++ [Char.ofNat 8])
      | 'f' :: rest => parseStringBody fuel rest (acc ++ [Char.ofNat 12])
      | 'n' :: rest => parseStringBody fuel rest (acc ++ ['\n'])
      | 'r' :: rest => parseStringBody fuel rest (acc ++ ['\r'])
      | 't' :: rest => parseStringBody fuel rest (acc ++ ['\t'])
      | 'u' :: h1 :: h2 :: h3 :: h4 :: rest =>
        match parseHexDigit h1, parseHexDigit h2, parseHexDigit h3, parseHexDigit h4 with
        | some a, some b, some c, some d =>
          let n := ((a * 16 + b) * 16 + c) * 16 + d
          if 55296 ≤ n && n ≤ 57343 then none
          else parseStringBody fuel rest (acc ++ [Char.ofNat n])
        | _, _, _, _ => none
      | _ => none
    | c :: rest =>
      if c.toNat < 32 then none
      else parseStringBody fuel rest (acc ++ [c])

/-- The number scanner of `json.loads`, restricted to integer literals
(`-?(0|[1-9][0-9]*)`); a following fraction or exponent makes the model
parser fail rather than produce a float. -/
def parseNum (s : List Char) : Option (JVal × List Char) :=
  let negs1 : Bool × List Char :=
    match s with
    | '-' :: r => (true, r)
    | _ => (false, s)
  let ds := negs1.2.takeWhile (fun c => '0' ≤ c && c ≤ '9')
  let s2 := negs1.2.dropWhile (fun c => '0' ≤ c && c ≤ '9')
  if ds.isEmpty then none
  else if 1 < ds.length && ds.head? = some '0' then none
  else
    match s2 with
    | '.' :: _ => none
    | 'e' :: _ => none
    | 'E' :: _ => none
    | _ =>
      let n : Nat := ds.foldl (fun a c => a * 10 + (c.toNat - 48)) 0
      some (JVal.num (if negs1.1 then -(n : Int) else (n : Int)), s2)

mutual
/-- The value parser of `json.loads`: keywords, strings, integer numbers,
arrays and objects, with surrounding JSON whitespace.  Fuel decreases at
every nesting step and every item; callers pass fuel exceeding what any
input of that length can consume. -/
def parseVal : Nat → List Char → Option (JVal × List Char)
  | 0, _ => none
  | fuel + 1, s =>
    match skipJsonWs s with
    | 'n' :: 'u' :: 'l' :: 'l' :: rest => some (JVal.null, rest)
    | 't' :: 'r' :: 'u' :: 'e' :: rest => some (JVal.bool true, rest)
    | 'f' :: 'a' :: 'l' :: 's' :: 'e' :: rest => some (JVal.bool false, rest)
    | '"' :: rest =>
      match parseStringBody (rest.length + 1) rest [] with
      | some (str, r) => some (JVal.str str, r)
      | none => none
    | '[' :: rest =>
      match skipJsonWs rest with
      | ']' :: r2 => some (JVal.arr [], r2)
      | _ => parseArrItems fuel rest []
    | '\x7b' :: rest =>
      match skipJsonWs rest with
      | '\x7d' :: r2 => some (JVal.obj [], r2)
      | _ => parseObjItems fuel rest []
    | other => parseNum other

def parseArrItems : Nat → List Char → List JVal → Option (JVal × List Char)
  | 0, _, _ => none
  | fuel + 1, s, acc =>
    match parseVal fuel s with
    | none => none
    | some (v, r) =>
      match skipJsonWs r with
      | ',' :: r2 => parseArrItems fuel r2 (acc ++ [v])
      | ']' :: r2 => some (JVal.arr (acc ++ [v]), r2)
      | _ => none

def parseObjItems : Nat → List Char → List (String × JVal) → Option (JVal × List Char)
  | 0, _, _ => none
  | fuel + 1, s, acc =>
    match skipJsonWs s with
    | '"' :: rest =>
      match parseStringBody (rest.length + 1) rest [] with
      | none => none
      | some (k, r) =>
        match skipJsonWs r with
        | ':' :: r2 =>
          match parseVal fuel r2 with
          | none => none
          | some (v, r3) =>
            match skipJsonWs r3 with
            | ',' :: r4 => parseObjItems fuel r4 (acc ++ [(k, v)])
            | '\x7d' :: r4 => some (JVal.obj (acc ++ [(k, v)]), r4)
            | _ => none
        | _ => none
    | _ => none
end

/-- Model of `json.loads(s)`: parse one value and reject trailing data. -/
def json_loads (s : String) : Except String JVal :=
  match parseVal (2 * s.data.length + 4) s.data with
  | none => Except.error "JSONDecodeError"
  | some (v, rest) =>
    if (skipJsonWs rest).isEmpty then Except.ok v
    else Except.error "Extra data"

/-- Model of `json_dumps_pretty(j, indent, sort_keys)` (utils.py lines
205-225): `_canonical_dumps`, the four regex substitutions, then
`json.loads` on the result (whose failure raises and whose value is
discarded), returning the transformed text. -/
def json_dumps_pretty (j : JVal) (indent : Nat := 2) (sort_keys : Bool := true) :
    Except String String :=
  let js := canonical_dumps j indent sort_keys
  let js1 := applySub match1 js
  let js2 := applySub match2 js1
  let js3 := applySub match3 js2
  let js4 := applySub match4 js3
  match json_loads (String.mk js4) with
  | Except.error e => Except.error e
  | Except.ok _ => Except.ok (String.mk js4)

/-- Split a character list at newlines (for stating that some text stands on
a line of its own). -/
def splitLines : List Char → List (List Char)
  | [] => [[]]
  | c :: rest =>
    if c = '\n' then [] :: splitLines rest
    else
      match splitLines rest with
      | l :: ls => (c :: l) :: ls
      | [] => [[c]]

-- ### Helper lemmas about the filesystem model

theorem all_can_read_shift : ALL_CAN_READ >>> 1 = ALL_CAN_WRITE := by decide

theorem FS.length_setMode (fs : FS) (p : String) (m : Nat) :
    (FS.setMode fs p m).length = fs.length := by
  induction fs with
  | nil => rfl
  | cons hd rest ih =>
    obtain ⟨q, e⟩ := hd
    unfold FS.setMode
    by_cases hq : q = p
    · simp [hq]
    · simp [hq, ih]

theorem FS.lookup_setMode_self {fs : FS} {p : String} {e : FsEntry} (m : Nat)
    (h : FS.lookup fs p = some e) :
    FS.lookup (FS.setMode fs p m) p = some (FsEntry.file m) := by
  induction fs with
  | nil => simp [FS.lookup] at h
  | cons hd rest ih =>
    obtain ⟨q, e0⟩ := hd
    unfold FS.lookup at h
    unfold FS.setMode
    by_cases hq : q = p
    · simp [hq, FS.lookup]
    · rw [if_neg hq] at h
      simp only [if_neg hq]
      unfold FS.lookup
      rw [if_neg hq]
      exact ih h

theorem FS.lookup_setMode_ne {fs : FS} {p q : String} (m : Nat) (h : q ≠ p) :
    FS.lookup (FS.setMode fs p m) q = FS.lookup fs q := by
  induction fs with
  | nil => rfl
  | cons hd rest ih =>
    obtain ⟨r, e0⟩ := hd
    unfold FS.setMode
    by_cases hr : r = p
    · subst hr
      simp only [if_pos rfl]
      simp only [FS.lookup]
      rw [if_neg (show ¬r = q from fun hrq => h hrq.symm),
        if_neg (show ¬r = q from fun hrq => h hrq.symm)]
    · simp only [if_neg hr]
      simp only [FS.lookup]
      by_cases hrq : r = q
      · rw [if_pos hrq, if_pos hrq]
      · rw [if_neg hrq, if_neg hrq]
        exact ih

theorem FS.setMode_self {fs : FS} {p : String} {m : Nat}
    (h : FS.lookup fs p = some (FsEntry.file m)) :
    FS.setMode fs p m = fs := by
  induction fs with
  | nil => rfl
  | cons hd rest ih =>
    obtain ⟨q, e0⟩ := hd
    unfold FS.lookup at h
    unfold FS.setMode
    by_cases hq : q = p
    · rw [if_pos hq] at h
      rw [if_pos hq]
      obtain rfl : e0 = FsEntry.file m := by
        cases h
        rfl
      rfl
    · rw [if_neg hq] at h
      rw [if_neg hq, ih h]

theorem FS.setMode_setMode (fs : FS) (p : String) (m1 m2 : Nat) :
    FS.setMode (FS.setMode fs p m1) p m2 = FS.setMode fs p m2 := by
  induction fs with
  | nil => rfl
  | cons hd rest ih =>
    obtain ⟨q, e0⟩ := hd
    simp only [FS.setMode]
    by_cases hq : q = p
    · simp [hq, FS.setMode]
    · simp only [if_neg hq]
      simp only [FS.setMode]
      rw [if_neg hq, ih]

theorem FS.realpathAux_setMode {fs : FS} {p : String} {m0 : Nat} (m : Nat)
    (hp : FS.lookup fs p = some (FsEntry.file m0)) :
    ∀ fuel q, FS.realpathAux (FS.setMode fs p m) fuel q = FS.realpathAux fs fuel q := by
  intro fuel
  induction fuel with
  | zero => intro q; rfl
  | succ k ih =>
    intro q
    unfold FS.realpathAux
    by_cases hq : q = p
    · subst hq
      rw [FS.lookup_setMode_self m hp, hp]
    · rw [FS.lookup_setMode_ne m hq]
      cases hfq : FS.lookup fs q with
      | none => rfl
      | some e =>
        cases e with
        | file m2 => rfl
        | symlink m2 t => exact ih t

theorem FS.realpath_setMode {fs : FS} {p : String} {m0 : Nat} (m : Nat)
    (hp : FS.lookup fs p = some (FsEntry.file m0)) (q : String) :
    FS.realpath (FS.setMode fs p m) q = FS.realpath fs q := by
  unfold FS.realpath
  rw [FS.length_setMode, FS.realpathAux_setMode m hp]

theorem FS.realpath_file {fs : FS} {p : String} {m : Nat}
    (h : FS.lookup fs p = some (FsEntry.file m)) :
    FS.realpath fs p = p := by
  unfold FS.realpath
  cases fs.length with
  | zero => rfl
  | succ k =>
    unfold FS.realpathAux
    rw [h]

theorem FS.lstatMode_lookup {fs : FS} {p : String} {e : FsEntry}
    (h : FS.lookup fs p = some e) :
    FS.lstatMode fs p = some (FsEntry.mode e &&& 0o7777) := by
  unfold FS.lstatMode
  rw [h]

theorem FS.lstatMode_le {fs : FS} {p : String} {perms : Nat}
    (h : FS.lstatMode fs p = some perms) : perms ≤ 0o7777 := by
  unfold FS.lstatMode at h
  cases hl : FS.lookup fs p with
  | none => rw [hl] at h; cases h
  | some e =>
    rw [hl] at h
    cases h
    exact Nat.and_le_right

/-- Inversion of a successful `set_readonly` call: the mode was read, the new
permissions computed, and `os.chmod` applied them to the resolved real file. -/
theorem set_readonly_ok_elim {fs : FS} {p : String} {ro : Bool} {n : Nat} {fs2 : FS}
    (h : set_readonly fs p ro = (Except.ok n, fs2)) :
    ∃ perms m0, FS.lstatMode fs p = some perms ∧ n = compute_new_perms perms ro ∧
      FS.lookup fs (FS.realpath fs p) = some (FsEntry.file m0) ∧
      fs2 = FS.setMode fs (FS.realpath fs p) n := by
  unfold set_readonly FS.chmod at h
  cases hls : FS.lstatMode fs p with
  | none => rw [hls] at h; simp at h
  | some perms =>
    rw [hls] at h
    cases hlk : FS.lookup fs (FS.realpath fs p) with
    | none => rw [hlk] at h; simp at h
    | some e =>
      rw [hlk] at h
      cases e with
      | symlink m t => simp at h
      | file m0 =>
        simp only [Prod.mk.injEq, Except.ok.injEq] at h
        obtain ⟨hn, hfs⟩ := h
        exact ⟨perms, m0, rfl, hn.symm, rfl, by rw [← hn, hfs]⟩

-- ### Decidable facts about the permission-bit computation (12-bit modes)

set_option maxRecDepth 8000

/-- Exhaustive checking over the 12-bit mode space, split as high 3 bits times
low 9 bits so the decision procedure recurses shallowly. -/
theorem forall_mode_bits (P : Nat → Prop)
    (h : ∀ hi : Fin 8, ∀ lo : Fin 512, P (hi.val * 512 + lo.val)) :
    ∀ x : Nat, x ≤ 4095 → P x := by
  intro x hx
  have hdiv : x / 512 < 8 := by omega
  have hmod : x % 512 < 512 := Nat.mod_lt _ (by omega)
  have hsum := h ⟨x / 512, hdiv⟩ ⟨x % 512, hmod⟩
  have hx2 : x / 512 * 512 + x % 512 = x := by omega
  rwa [hx2] at hsum

theorem compute_new_perms_and_mask : ∀ x : Nat, x ≤ 4095 → ∀ b : Bool,
    compute_new_perms x b &&& 0o7777 = compute_new_perms x b :=
  forall_mode_bits
    (fun x => ∀ b : Bool, compute_new_perms x b &&& 0o7777 = compute_new_perms x b)
    (by decide)

theorem compute_new_perms_true_clears_write : ∀ x : Nat, x ≤ 4095 →
    compute_new_perms x true &&& ALL_CAN_WRITE = 0 :=
  forall_mode_bits (fun x => compute_new_perms x true &&& ALL_CAN_WRITE = 0) (by decide)

theorem compute_new_perms_false_idem : ∀ x : Nat, x ≤ 4095 →
    compute_new_perms (compute_new_perms x false) false = compute_new_perms x false :=
  forall_mode_bits
    (fun x => compute_new_perms (compute_new_perms x false) false = compute_new_perms x false)
    (by decide)

theorem compute_new_perms_frame : ∀ x : Nat, x ≤ 4095 → ∀ b : Bool,
    compute_new_perms x b &&& 0o7555 = x &&& 0o7555 :=
  forall_mode_bits (fun x => ∀ b : Bool, compute_new_perms x b &&& 0o7555 = x &&& 0o7555)
    (by decide)

theorem compute_new_perms_per_class : ∀ x : Nat, x ≤ 4095 →
    PerClassWriteGrant x (compute_new_perms x false) :=
  forall_mode_bits (fun x => PerClassWriteGrant x (compute_new_perms x false)) (by decide)

theorem compute_new_perms_no_read : ∀ x : Nat, x ≤ 4095 →
    x &&& ALL_CAN_READ = 0 → compute_new_perms x false = x :=
  forall_mode_bits (fun x => x &&& ALL_CAN_READ = 0 → compute_new_perms x false = x)
    (by decide)

theorem compute_new_perms_roundtrip : ∀ x : Nat, x ≤ 4095 →
    (x &&& ALL_CAN_READ) >>> 1 = x &&& ALL_CAN_WRITE →
    compute_new_perms (compute_new_perms x true) false = x :=
  forall_mode_bits
    (fun x => (x &&& ALL_CAN_READ) >>> 1 = x &&& ALL_CAN_WRITE →
      compute_new_perms (compute_new_perms x true) false = x)
    (by decide)

theorem mode_and_mask : ∀ x : Nat, x ≤ 4095 → x &&& 0o7777 = x :=
  forall_mode_bits (fun x => x &&& 0o7777 = x) (by decide)

-- ### Claim theorems: the permission toggler

/-- Claim C2: for every existing path and every initial combination of mode
bits, a successful `set_readonly(p, True)` is followed by `is_readonly(p)`
returning `true`; equivalently, none of the three owner/group/other write
bits is set in the resulting mode. -/
theorem set_readonly_true_then_is_readonly (fs : FS) (p : String) (n : Nat) (fs2 : FS)
    (h : set_readonly fs p true = (Except.ok n, fs2)) :
    is_readonly fs2 p = Except.ok true ∧ n &&& ALL_CAN_WRITE = 0 := by
  obtain ⟨perms, m0, hls, hn, hlk, hfs2⟩ := set_readonly_ok_elim h
  have hperms : perms ≤ 4095 := FS.lstatMode_le hls
  have hnw : n &&& ALL_CAN_WRITE = 0 := by
    rw [hn]
    exact compute_new_perms_true_clears_write perms hperms
  refine ⟨?_, hnw⟩
  have hrp : FS.realpath fs2 p = FS.realpath fs p := by
    rw [hfs2]
    exact FS.realpath_setMode n hlk p
  have hlk2 : FS.lookup fs2 (FS.realpath fs p) = some (FsEntry.file n) := by
    rw [hfs2]
    exact FS.lookup_setMode_self n hlk
  have hmask : n &&& 0o7777 = n := by
    rw [hn]
    exact compute_new_perms_and_mask perms hperms true
  unfold is_readonly
  rw [hrp, FS.lstatMode_lookup hlk2]
  show Except.ok (decide (FsEntry.mode (FsEntry.file n) &&& 0o7777 &&& ALL_CAN_WRITE = 0))
    = Except.ok true
  simp only [FsEntry.mode, hmask, hnw]
  rfl

theorem set_readonly_true_then_is_readonly_witness :
    is_readonly [("f", FsEntry.file 0o444)] "f" = Except.ok true ∧
    (0o444 : Nat) &&& ALL_CAN_WRITE = 0 :=
  set_readonly_true_then_is_readonly [("f", FsEntry.file 0o666)] "f" 0o444
    [("f", FsEntry.file 0o444)] rfl

/-- Claim C3: a successful `set_readonly(p, False)` sets, for each of the
three classes independently, the write bit exactly when that class currently
has its read bit set, and leaves classes without the read bit untouched; in
particular initial mode `0o400` yields resulting mode `0o600`. -/
theorem set_readonly_false_grants_write_per_class (fs : FS) (p : String)
    (perms n : Nat) (fs2 : FS)
    (hls : FS.lstatMode fs p = some perms)
    (h : set_readonly fs p false = (Except.ok n, fs2)) :
    PerClassWriteGrant perms n ∧ (perms = 0o400 → n = 0o600) := by
  obtain ⟨perms', m0, hls', hn, hlk, hfs2⟩ := set_readonly_ok_elim h
  rw [hls] at hls'
  obtain rfl : perms = perms' := Option.some.inj hls'
  have hperms : perms ≤ 4095 := FS.lstatMode_le hls
  constructor
  · rw [hn]
    exact compute_new_perms_per_class perms hperms
  · intro hp
    rw [hn, hp]
    decide

theorem set_readonly_false_grants_write_per_class_witness :
    PerClassWriteGrant 0o400 0o600 ∧ ((0o400 : Nat) = 0o400 → (0o600 : Nat) = 0o600) :=
  set_readonly_false_grants_write_per_class [("f", FsEntry.file 0o400)] "f" 0o400 0o600
    [("f", FsEntry.file 0o600)] rfl rfl

/-- Claim C5: a successful `set_readonly` call, with either flag value,
changes only the three write bits: read, execute, setuid, setgid and sticky
bits of the resulting mode equal those of the initial mode
(`0o7555` masks every mode bit except the three write bits `0o222`). -/
theorem set_readonly_touches_only_write_bits (fs : FS) (p : String) (ro : Bool)
    (perms n : Nat) (fs2 : FS)
    (hls : FS.lstatMode fs p = some perms)
    (h : set_readonly fs p ro = (Except.ok n, fs2)) :
    n &&& 0o7555 = perms &&& 0o7555 := by
  obtain ⟨perms', m0, hls', hn, hlk, hfs2⟩ := set_readonly_ok_elim h
  rw [hls] at hls'
  obtain rfl : perms = perms' := Option.some.inj hls'
  rw [hn]
  exact compute_new_perms_frame perms (FS.lstatMode_le hls) ro

theorem set_readonly_touches_only_write_bits_witness :
    (0o4555 : Nat) &&& 0o7555 = (0o4755 : Nat) &&& 0o7555 :=
  set_readonly_touches_only_write_bits [("f", FsEntry.file 0o4755)] "f" true 0o4755 0o4555
    [("f", FsEntry.file 0o4555)] rfl rfl

/-- Claim C6: `is_readonly(path)` fully dereferences symbolic links via
`os.path.realpath`, reads the resolved entry's mode bits, and returns true
iff none of the three write bits is set.  The model function returns only a
value and no filesystem, so it has no side effect. -/
theorem is_readonly_checks_resolved_target (fs : FS) (p : String) (e : FsEntry)
    (h : FS.lookup fs (FS.realpath fs p) = some e) :
    is_readonly fs p = Except.ok true ↔ FsEntry.mode e &&& 0o7777 &&& ALL_CAN_WRITE = 0 := by
  unfold is_readonly
  rw [FS.lstatMode_lookup h]
  simp

theorem is_readonly_checks_resolved_target_witness :
    is_readonly [("link", FsEntry.symlink 0o777 "f"), ("f", FsEntry.file 0o444)] "link"
      = Except.ok true :=
  (is_readonly_checks_resolved_target
    [("link", FsEntry.symlink 0o777 "f"), ("f", FsEntry.file 0o444)] "link"
    (FsEntry.file 0o444) rfl).mpr (by decide)

/-- Claim C7, counterexample to the claim as stated: a file with initial mode
`0o200` (owner write, no read bit for any class) keeps its write bit after
`set_readonly(p, False)`, so "all three write bits of the resulting mode are
unset" is false. -/
theorem set_readonly_false_write_only_mode_cex :
    FS.lstatMode [("f", FsEntry.file 0o200)] "f" = some 0o200 ∧
    (0o200 : Nat) &&& ALL_CAN_READ = 0 ∧
    set_readonly [("f", FsEntry.file 0o200)] "f" false
      = (Except.ok 0o200, [("f", FsEntry.file 0o200)]) ∧
    (0o200 : Nat) &&& ALL_CAN_WRITE ≠ 0 :=
  ⟨rfl, by decide, rfl, by decide⟩

/-- Claim C7 (amended): for every existing path whose mode has no read bit
set for any class, `set_readonly(p, False)` grants no write bit: the
resulting mode equals the initial mode, so the write bits are unchanged (in
particular they stay unset when they were unset). -/
theorem set_readonly_false_no_read_is_noop (fs : FS) (p : String)
    (perms n : Nat) (fs2 : FS)
    (hls : FS.lstatMode fs p = some perms)
    (hnr : perms &&& ALL_CAN_READ = 0)
    (h : set_readonly fs p false = (Except.ok n, fs2)) :
    n = perms ∧ n &&& ALL_CAN_WRITE = perms &&& ALL_CAN_WRITE := by
  obtain ⟨perms', m0, hls', hn, hlk, hfs2⟩ := set_readonly_ok_elim h
  rw [hls] at hls'
  obtain rfl : perms = perms' := Option.some.inj hls'
  have hnp : n = perms := by
    rw [hn]
    exact compute_new_perms_no_read perms (FS.lstatMode_le hls) hnr
  exact ⟨hnp, by rw [hnp]⟩

theorem set_readonly_false_no_read_is_noop_witness :
    (0o111 : Nat) = 0o111 ∧
    (0o111 : Nat) &&& ALL_CAN_WRITE = (0o111 : Nat) &&& ALL_CAN_WRITE :=
  set_readonly_false_no_read_is_noop [("f", FsEntry.file 0o111)] "f" 0o111 0o111
    [("f", FsEntry.file 0o111)] rfl (by decide) rfl

/-- Claim C8: `set_readonly(p, False)` is idempotent: calling it twice in
succession yields the same returned mode and the same filesystem as calling
it once. -/
theorem set_readonly_false_idempotent (fs : FS) (p : String)
    (n1 n2 : Nat) (fs1 fs2 : FS)
    (h1 : set_readonly fs p false = (Except.ok n1, fs1))
    (h2 : set_readonly fs1 p false = (Except.ok n2, fs2)) :
    n2 = n1 ∧ fs2 = fs1 := by
  obtain ⟨perms, m0, hls, hn1, hlk, hfs1⟩ := set_readonly_ok_elim h1
  obtain ⟨perms2, m02, hls2, hn2, hlk2, hfs2⟩ := set_readonly_ok_elim h2
  have hperms : perms ≤ 4095 := FS.lstatMode_le hls
  have hrp : FS.realpath fs1 p = FS.realpath fs p := by
    rw [hfs1]
    exact FS.realpath_setMode n1 hlk p
  have hlk1 : FS.lookup fs1 (FS.realpath fs p) = some (FsEntry.file n1) := by
    rw [hfs1]
    exact FS.lookup_setMode_self n1 hlk
  have hn1mask : n1 &&& 0o7777 = n1 := by
    rw [hn1]
    exact compute_new_perms_and_mask perms hperms false
  have hn2n1 : n2 = n1 := by
    by_cases hpq : p = FS.realpath fs p
    · -- p itself is the regular file rewritten by the first call
      have hlsn : FS.lstatMode fs1 p = some n1 := by
        rw [hpq, FS.lstatMode_lookup hlk1]
        show some (n1 &&& 0o7777) = some n1
        rw [hn1mask]
      rw [hlsn] at hls2
      obtain rfl : n1 = perms2 := Option.some.inj hls2
      rw [hn2, hn1]
      exact compute_new_perms_false_idem perms hperms
    · -- p is a symlink whose own mode the first call did not change
      have hlsn : FS.lstatMode fs1 p = FS.lstatMode fs p := by
        unfold FS.lstatMode
        rw [hfs1, FS.lookup_setMode_ne n1 hpq]
      rw [hlsn, hls] at hls2
      obtain rfl : perms = perms2 := Option.some.inj hls2
      rw [hn2, ← hn1]
  refine ⟨hn2n1, ?_⟩
  rw [hfs2, hrp, hn2n1, FS.setMode_self hlk1]

theorem set_readonly_false_idempotent_witness :
    (0o600 : Nat) = 0o600 ∧
    ([("f", FsEntry.file 0o600)] : FS) = [("f", FsEntry.file 0o600)] :=
  set_readonly_false_idempotent [("f", FsEntry.file 0o400)] "f" 0o600 0o600
    [("f", FsEntry.file 0o600)] [("f", FsEntry.file 0o600)] rfl rfl

/-- Claim C9: when the path cannot be lstat'ed, `set_readonly` fails with a
filesystem error and performs no mutation (the returned filesystem is the
input one; the mode is read before any `os.chmod` is attempted); and a
successful return is never a lie: on success the resolved file's mode really
equals the returned permissions. -/
theorem set_readonly_failure_semantics (fs : FS) (p : String) (ro : Bool) :
    (FS.lstatMode fs p = none →
      set_readonly fs p ro = (Except.error "FilesystemError", fs)) ∧
    (∀ n fs2, set_readonly fs p ro = (Except.ok n, fs2) →
      FS.lstatMode fs2 (FS.realpath fs p) = some n) := by
  constructor
  · intro h
    unfold set_readonly
    rw [h]
  · intro n fs2 h
    obtain ⟨perms, m0, hls, hn, hlk, hfs2⟩ := set_readonly_ok_elim h
    have hperms : perms ≤ 4095 := FS.lstatMode_le hls
    have hlk2 : FS.lookup fs2 (FS.realpath fs p) = some (FsEntry.file n) := by
      rw [hfs2]
      exact FS.lookup_setMode_self n hlk
    rw [FS.lstatMode_lookup hlk2]
    show some (n &&& 0o7777) = some n
    rw [hn, compute_new_perms_and_mask perms hperms ro]

theorem set_readonly_failure_semantics_witness :
    set_readonly ([] : FS) "missing" true = (Except.error "FilesystemError", ([] : FS)) ∧
    FS.lstatMode [("f", FsEntry.file 0)] (FS.realpath [("f", FsEntry.file 0o200)] "f")
      = some 0 :=
  ⟨(set_readonly_failure_semantics [] "missing" true).1 rfl,
   (set_readonly_failure_semantics [("f", FsEntry.file 0o200)] "f" true).2 0
     [("f", FsEntry.file 0)] rfl⟩

/-- Claim C10, counterexample to the claim as stated: initial mode `0o444`
satisfies write-implies-read per class (it has no write bit at all), yet
`set_readonly(p, True)` followed by `set_readonly(p, False)` produces mode
`0o666`, not the original `0o444`. -/
theorem readonly_roundtrip_not_restored_cex :
    (0o444 : Nat) &&& ALL_CAN_WRITE = 0 ∧
    set_readonly [("f", FsEntry.file 0o444)] "f" true
      = (Except.ok 0o444, [("f", FsEntry.file 0o444)]) ∧
    set_readonly [("f", FsEntry.file 0o444)] "f" false
      = (Except.ok 0o666, [("f", FsEntry.file 0o666)]) ∧
    (0o666 : Nat) ≠ 0o444 :=
  ⟨by decide, rfl, rfl, by decide⟩

/-- Claim C10 (amended): for every existing regular file whose mode has, in
each class, the write bit set exactly when the read bit is set,
`set_readonly(p, True)` followed by `set_readonly(p, False)` restores exactly
the original mode and filesystem. -/
theorem readonly_roundtrip_restores_mode (fs : FS) (p : String)
    (perms n1 n2 : Nat) (fs1 fs2 : FS)
    (hf : FS.lookup fs p = some (FsEntry.file perms))
    (hperms : perms ≤ 4095)
    (hrw : (perms &&& ALL_CAN_READ) >>> 1 = perms &&& ALL_CAN_WRITE)
    (h1 : set_readonly fs p true = (Except.ok n1, fs1))
    (h2 : set_readonly fs1 p false = (Except.ok n2, fs2)) :
    n2 = perms ∧ fs2 = fs := by
  have hrp : FS.realpath fs p = p := FS.realpath_file hf
  obtain ⟨perms1, m0, hls1, hn1, hlk1, hfs1⟩ := set_readonly_ok_elim h1
  have hls : FS.lstatMode fs p = some perms := by
    rw [FS.lstatMode_lookup hf]
    show some (perms &&& 0o7777) = some perms
    rw [mode_and_mask perms hperms]
  rw [hls] at hls1
  obtain rfl : perms = perms1 := Option.some.inj hls1
  rw [hrp] at hfs1
  obtain ⟨perms2, m02, hls2, hn2, hlk2, hfs2⟩ := set_readonly_ok_elim h2
  have hlkfs1 : FS.lookup fs1 p = some (FsEntry.file n1) := by
    rw [hfs1]
    exact FS.lookup_setMode_self n1 hf
  have hls2' : FS.lstatMode fs1 p = some n1 := by
    rw [FS.lstatMode_lookup hlkfs1]
    show some (n1 &&& 0o7777) = some n1
    rw [hn1, compute_new_perms_and_mask perms hperms true]
  rw [hls2'] at hls2
  obtain rfl : n1 = perms2 := Option.some.inj hls2
  have hrpfs1 : FS.realpath fs1 p = p := FS.realpath_file hlkfs1
  rw [hrpfs1] at hfs2
  have hn2' : n2 = perms := by
    rw [hn2, hn1]
    exact compute_new_perms_roundtrip perms hperms hrw
  refine ⟨hn2', ?_⟩
  rw [hfs2, hfs1, FS.setMode_setMode, hn2']
  exact FS.setMode_self hf

theorem readonly_roundtrip_restores_mode_witness :
    (0o666 : Nat) = 0o666 ∧
    ([("f", FsEntry.file 0o666)] : FS) = [("f", FsEntry.file 0o666)] :=
  readonly_roundtrip_restores_mode [("f", FsEntry.file 0o666)] "f" 0o666 0o444 0o666
    [("f", FsEntry.file 0o444)] [("f", FsEntry.file 0o666)] rfl (by decide) (by decide)
    rfl rfl

-- ### Claim theorems: the JSON formatter

/-- Claim C4: for the value `\x7b"a": [1,2,3,4,5], "b": "x"\x7d` with indent 2
and sorted keys, `json_dumps_pretty` merges the run of five numeric-only
baseline lines into the single line `[1, 2, 3, 4, 5]`, keeps `"b": "x"` on
its own indented line, and the output parses back to the original value. -/
theorem json_dumps_pretty_numeric_array_example :
    json_dumps_pretty (JVal.obj [("a", JVal.arr [JVal.num 1, JVal.num 2, JVal.num 3,
        JVal.num 4, JVal.num 5]), ("b", JVal.str "x")]) 2 true
      = Except.ok "\x7b\n  \"a\": [1, 2, 3, 4, 5],\n  \"b\": \"x\"\n\x7d" ∧
    canonical_dumps (JVal.obj [("a", JVal.arr [JVal.num 1, JVal.num 2, JVal.num 3,
        JVal.num 4, JVal.num 5]), ("b", JVal.str "x")]) 2 true
      = "\x7b\n  \"a\": [\n    1,\n    2,\n    3,\n    4,\n    5\n  ],\n  \"b\": \"x\"\n\x7d".data ∧
    "  \"a\": [1, 2, 3, 4, 5],".data
      ∈ splitLines ("\x7b\n  \"a\": [1, 2, 3, 4, 5],\n  \"b\": \"x\"\n\x7d".data) ∧
    "  \"b\": \"x\"".data
      ∈ splitLines ("\x7b\n  \"a\": [1, 2, 3, 4, 5],\n  \"b\": \"x\"\n\x7d".data) ∧
    json_loads "\x7b\n  \"a\": [1, 2, 3, 4, 5],\n  \"b\": \"x\"\n\x7d"
      = Except.ok (JVal.obj [("a", JVal.arr [JVal.num 1, JVal.num 2, JVal.num 3,
          JVal.num 4, JVal.num 5]), ("b", JVal.str "x")]) := by
  refine ⟨by rfl, by rfl, ?_, ?_, by rfl⟩
  · show "  \"a\": [1, 2, 3, 4, 5],".data
      ∈ ["\x7b".data, "  \"a\": [1, 2, 3, 4, 5],".data, "  \"b\": \"x\"".data, "\x7d".data]
    exact List.mem_cons_of_mem _ (List.mem_cons_self _ _)
  · show "  \"b\": \"x\"".data
      ∈ ["\x7b".data, "  \"a\": [1, 2, 3, 4, 5],".data, "  \"b\": \"x\"".data, "\x7d".data]
    exact List.mem_cons_of_mem _ (List.mem_cons_of_mem _ (List.mem_cons_self _ _))

/-- Claim C1 is refuted by the code: on the JSON string value `"  1"` (two
spaces then a digit), `json_dumps_pretty` returns the text `" 1"` — the third
regex collapses the run of spaces inside the string literal — so parsing the
output yields a different value, and no exception is raised (the round-trip
assert in the source is commented out even though the docstring promises
one). -/
theorem json_dumps_pretty_space_digit_string_eval :
    json_dumps_pretty (JVal.str "  1") 2 true = Except.ok "\" 1\"" ∧
    json_loads "\" 1\"" = Except.ok (JVal.str " 1") ∧
    JVal.str " 1" ≠ JVal.str "  1" := by
  refine ⟨by rfl, by rfl, ?_⟩
  intro h
  injection h with h2
  exact absurd h2 (by decide)
